import Mathlib

set_option linter.unusedVariables false

/-! Shallow embedding of the TF_Bus repository (src/utils.py, src/app.py,
src/bods_api.py): the feed-to-table normalizer, the lookup helper, the
haversine distance utility and the filter/sort pipeline of `main`, together
with proofs of the behavioural claims about them.
-/

namespace TFBus

/-- A Python scalar value as it occurs in the normalized rows and in the
attributes of BODS vehicle-activity objects: `None`, a string, or a number
(Python floats of the data are modelled as rationals; the rounded distance
written by the pipeline is an exact multiple of 1/100, hence also rational). -/
inductive PyVal where
  | none : PyVal
  | str : String → PyVal
  | num : ℚ → PyVal
deriving DecidableEq, Repr

/-- Python truthiness of a `PyVal`: `None` is falsy, a string is truthy iff
non-empty, a number is truthy iff non-zero. -/
def pyTruthy : PyVal → Bool
  | .none => false
  | .str s => !(s == "")
  | .num q => !(q == 0)

/-- Python short-circuit `a or b`: returns `a` when `a` is truthy, else `b`. -/
def pyOr (a b : PyVal) : PyVal :=
  if pyTruthy a then a else b

/-- The nested `monitored_call` object of a BODS MonitoredVehicleJourney.
Each attribute is `Option PyVal`: `Option.none` means the attribute is absent
(`hasattr` fails), `some v` means it is present holding `v` (possibly
`PyVal.none`, i.e. Python `None`). -/
structure MonitoredCall where
  stop_point_name : Option PyVal
  expected_arrival_time : Option PyVal
deriving DecidableEq, Repr

/-- The nested `vehicle_location` object with latitude/longitude attributes. -/
structure VehicleLocation where
  latitude : Option PyVal
  longitude : Option PyVal
deriving DecidableEq, Repr

/-- A BODS MonitoredVehicleJourney: every attribute may be absent
(`Option.none`), present holding `None` (`some PyVal.none` for leaves,
`some Option.none` for the nested objects), or present holding a value. -/
structure MonitoredVehicleJourney where
  vehicle_ref : Option PyVal
  published_line_name : Option PyVal
  line_ref : Option PyVal
  direction_ref : Option PyVal
  operator_ref : Option PyVal
  velocity : Option PyVal
  bearing : Option PyVal
  monitored_call : Option (Option MonitoredCall)
  origin_name : Option PyVal
  destination_name : Option PyVal
  vehicle_location : Option (Option VehicleLocation)
deriving DecidableEq, Repr

/-- A BODS VehicleActivity. `process_activities_to_data` reads
`activity.monitored_vehicle_journey` by direct attribute access; the value may
be `None` (modelled `Option.none`), in which case every `safe_get` on it
returns its default. -/
structure VehicleActivity where
  monitored_vehicle_journey : Option MonitoredVehicleJourney
deriving DecidableEq, Repr

/-- The flat dictionary built per activity by `process_activities_to_data`
(keys "Vehicle Ref", "Line", "Direction", "Operator", "Speed (km/h)",
"Bearing", "Next Stop", "ETA", "From", "To", "Lat", "Lon", "Distance (km)"). -/
structure NormalizedBusRow where
  vehicle_ref : PyVal
  line : PyVal
  direction : PyVal
  operator : PyVal
  speed : PyVal
  bearing : PyVal
  next_stop : PyVal
  eta : PyVal
  from_name : PyVal
  to_name : PyVal
  lat : PyVal
  lon : PyVal
  distance : PyVal
deriving DecidableEq, Repr

/-- The helper `safe_get(mvj, attr, default)` for a one-segment attribute path: if the
current object is `None` or lacks the attribute, return the default;
otherwise return the attribute value unchecked (it may be `None`). -/
def safe_get (mvj : Option MonitoredVehicleJourney)
    (attr : MonitoredVehicleJourney → Option PyVal) (default : PyVal) : PyVal :=
  match mvj with
  | Option.none => default
  | some m =>
    match attr m with
    | Option.none => default
    | some v => v

/-- The call `safe_get(mvj, "monitored_call.<leaf>", default)`: walk the two-segment
path, returning the default as soon as a segment is absent or the current
object is `None`; a `None` held by the final leaf is returned as-is. -/
def safe_get_call (mvj : Option MonitoredVehicleJourney)
    (attr : MonitoredCall → Option PyVal) (default : PyVal) : PyVal :=
  match mvj with
  | Option.none => default
  | some m =>
    match m.monitored_call with
    | Option.none => default
    | some mcOpt =>
      match mcOpt with
      | Option.none => default
      | some mc =>
        match attr mc with
        | Option.none => default
        | some v => v

/-- The call `safe_get(mvj, "vehicle_location.<leaf>", default)`: same two-segment walk
through the `vehicle_location` object. -/
def safe_get_loc (mvj : Option MonitoredVehicleJourney)
    (attr : VehicleLocation → Option PyVal) (default : PyVal) : PyVal :=
  match mvj with
  | Option.none => default
  | some m =>
    match m.vehicle_location with
    | Option.none => default
    | some locOpt =>
      match locOpt with
      | Option.none => default
      | some loc =>
        match attr loc with
        | Option.none => default
        | some v => v

/-- The "Line" expression of the row dictionary:
`safe_get(mvj, "published_line_name") or safe_get(mvj, "line_ref") or "N/A"`
(Python `or` is left-associative and short-circuits on truthiness; note both
`safe_get` calls default to the truthy string "N/A"). -/
def resolveLine (mvj : Option MonitoredVehicleJourney) : PyVal :=
  pyOr (pyOr (safe_get mvj (fun m => m.published_line_name) (.str "N/A"))
             (safe_get mvj (fun m => m.line_ref) (.str "N/A")))
       (.str "N/A")

/-- The dictionary appended to `bus_data` for one activity
(utils.py lines 36-51). -/
def processRow (activity : VehicleActivity) : NormalizedBusRow :=
  let mvj := activity.monitored_vehicle_journey
  { vehicle_ref := safe_get mvj (fun m => m.vehicle_ref) (.str "N/A")
    line := resolveLine mvj
    direction := safe_get mvj (fun m => m.direction_ref) (.str "N/A")
    operator := safe_get mvj (fun m => m.operator_ref) (.str "N/A")
    speed := safe_get mvj (fun m => m.velocity) (.str "N/A")
    bearing := safe_get mvj (fun m => m.bearing) (.str "N/A")
    next_stop := safe_get_call mvj (fun c => c.stop_point_name) (.str "N/A")
    eta := safe_get_call mvj (fun c => c.expected_arrival_time) (.str "N/A")
    from_name := safe_get mvj (fun m => m.origin_name) (.str "N/A")
    to_name := safe_get mvj (fun m => m.destination_name) (.str "N/A")
    lat := safe_get_loc mvj (fun l => l.latitude) (.num 0)
    lon := safe_get_loc mvj (fun l => l.longitude) (.num 0)
    distance := .str "N/A" }

/-- The `bus_data` list accumulated by the per-activity loop of
`process_activities_to_data` (one row per activity, in input order). -/
def buildRows (vehicle_activities : List VehicleActivity) : List NormalizedBusRow :=
  vehicle_activities.map processRow

/-- A Python exception, as far as the claims need it: a `NameError` on an
unbound name, or any other exception with a message. -/
inductive PyError where
  | nameError : String → PyError
  | other : String → PyError
deriving DecidableEq, Repr

/-- The function `process_activities_to_data` (utils.py lines 17-59) as it actually
executes: the per-activity loop fills `bus_data`; then the inner
`def get_bus_details_by_ref` statement binds a local closure; then the
mis-indented statement `for data in bus_data_list:` (line 54) evaluates the
name `bus_data_list`, which is bound nowhere (it is only a parameter of the
inner function), so the call raises `NameError` before ever reaching
`return bus_data` (line 59). -/
def process_activities_to_data (vehicle_activities : List VehicleActivity) :
    Except PyError (List NormalizedBusRow) :=
  let _bus_data := buildRows vehicle_activities
  Except.error (PyError.nameError "bus_data_list")

/-- The function `get_bus_details_by_ref` as actually defined (utils.py lines 52-53): its
body is only the docstring (the lookup loop below it is indented at the outer
level), so every call returns `None`. -/
def get_bus_details_by_ref (bus_data_list : List NormalizedBusRow)
    (vehicle_ref : PyVal) : Option NormalizedBusRow :=
  Option.none

/-- The names bound at module level in utils.py: the five names imported from
`math` and the two module-level `def`s. The inner `get_bus_details_by_ref` is
a local of `process_activities_to_data`, not a module-level name, so
app.py line 11 (`from utils import haversine, process_activities_to_data,
get_bus_details_by_ref`) raises `ImportError`. -/
def utils_module_names : List String :=
  ["radians", "sin", "cos", "sqrt", "atan2",
   "haversine", "process_activities_to_data"]

/-- Python `math.radians`: degrees to radians. -/
noncomputable def radians (x : ℝ) : ℝ := x * Real.pi / 180

/-- Python `math.atan2(y, x)` (C library semantics, used by Python `math.atan2`). -/
noncomputable def atan2 (y x : ℝ) : ℝ :=
  if 0 < x then Real.arctan (y / x)
  else if x < 0 ∧ 0 ≤ y then Real.arctan (y / x) + Real.pi
  else if x < 0 ∧ y < 0 then Real.arctan (y / x) - Real.pi
  else if x = 0 ∧ 0 < y then Real.pi / 2
  else if x = 0 ∧ y < 0 then -(Real.pi / 2)
  else 0

/-- The function `haversine` (utils.py lines 6-13): great-circle distance in km between two
latitude/longitude pairs in degrees, Earth radius `R = 6371`, via the `atan2`
form `c = 2*atan2(sqrt a, sqrt(1-a))`. Python floats are modelled as reals. -/
noncomputable def haversine (lat1 lon1 lat2 lon2 : ℝ) : ℝ :=
  let R : ℝ := 6371
  let dlat := radians (lat2 - lat1)
  let dlon := radians (lon2 - lon1)
  let a := Real.sin (dlat / 2) ^ 2 +
    Real.cos (radians lat1) * Real.cos (radians lat2) * Real.sin (dlon / 2) ^ 2
  let c := 2 * atan2 (Real.sqrt a) (Real.sqrt (1 - a))
  R * c

/-- Python `round(x, 2)`: the nearest multiple of 1/100 (an exact rational).
Tie-breaking at exact half-cents is immaterial for the claims; Mathlib
`round` (ties up) stands in for float ties-to-even. -/
noncomputable def round2 (x : ℝ) : ℚ :=
  (round (x * 100) : ℤ) / 100

/-- Numeric reading of a row field as a rational (the pipeline only applies it
to fields holding numbers; Python would raise `TypeError` otherwise). -/
def pyNumQ : PyVal → ℚ
  | .num q => q
  | _ => 0

/-- Numeric reading of a row field as a real, for feeding `haversine`. -/
noncomputable def pyNumR (v : PyVal) : ℝ := (pyNumQ v : ℝ)

/-- The retention condition of the filter loop (app.py lines 253-254):
`(not selected_lines or data["Line"] in selected_lines) and
 (not selected_operators or data["Operator"] in selected_operators)`. -/
def retained (selected_lines selected_operators : List PyVal)
    (data : NormalizedBusRow) : Prop :=
  (selected_lines = [] ∨ data.line ∈ selected_lines) ∧
  (selected_operators = [] ∨ data.operator ∈ selected_operators)

instance (sl so : List PyVal) (d : NormalizedBusRow) : Decidable (retained sl so d) :=
  instDecidableAnd

/-- The filter loop of `main` (app.py lines 250-257) restricted to its effect
on `filtered_bus_data`: rows passing `retained` are appended in order (each as
a copy, which in this value model is the row itself). -/
def rowFilter (sl so : List PyVal) : List NormalizedBusRow → List NormalizedBusRow
  | [] => []
  | d :: rest =>
    if retained sl so d then d :: rowFilter sl so rest else rowFilter sl so rest

/-- The filter loop of `main` in full: it iterates over
`zip(vehicle_activities, bus_data)` and appends the activity to
`filtered_activities` and a copy of the row to `filtered_bus_data` when the
row passes `retained`. -/
def applyFilters (sl so : List PyVal) :
    List (VehicleActivity × NormalizedBusRow) →
    List VehicleActivity × List NormalizedBusRow
  | [] => ([], [])
  | (a, d) :: rest =>
    let r := applyFilters sl so rest
    if retained sl so d then (a :: r.1, d :: r.2) else r

/-- The distance-update loop (app.py lines 263-264): the "Distance (km)" field of
each retained row is overwritten with
`round(haversine(user_lat, user_lon, data["Lat"], data["Lon"]), 2)`. -/
noncomputable def updateDistances (user_lat user_lon : ℝ)
    (rows : List NormalizedBusRow) : List NormalizedBusRow :=
  rows.map fun d =>
    { d with distance := .num (round2 (haversine user_lat user_lon
        (pyNumR d.lat) (pyNumR d.lon))) }

/-- The sort key ordering of `filtered_bus_data.sort(key=lambda x:
x["Distance (km)"])`: compare rows by their stored distance value. -/
def distRel (a b : NormalizedBusRow) : Prop :=
  pyNumQ a.distance ≤ pyNumQ b.distance

instance : DecidableRel distRel := fun a b => Rat.instDecidableLe _ _

instance : IsTotal NormalizedBusRow distRel :=
  ⟨fun a b => le_total (pyNumQ a.distance) (pyNumQ b.distance)⟩

instance : IsTrans NormalizedBusRow distRel :=
  ⟨fun _ _ _ hab hbc => le_trans hab hbc⟩

/-- Python `list.sort` with the distance key: Python sort is stable and ascending;
any stable sort w.r.t. a total preorder produces the same list, so the stable
`insertionSort` models it exactly. -/
noncomputable def sortByDistance (rows : List NormalizedBusRow) : List NormalizedBusRow :=
  List.insertionSort distRel rows

/-- Step 3.4 of `main` (app.py lines 259-266): when `user_loc` is set and the
filtered list is non-empty (`if user_loc and filtered_bus_data:`), update
every distance and sort ascending by it; otherwise leave the list as it came
out of the filter. -/
noncomputable def pipeline_3_4 (user_loc : Option (ℝ × ℝ))
    (filtered_bus_data : List NormalizedBusRow) : List NormalizedBusRow :=
  match user_loc with
  | Option.none => filtered_bus_data
  | some (user_lat, user_lon) =>
    if filtered_bus_data.isEmpty then filtered_bus_data
    else sortByDistance (updateDistances user_lat user_lon filtered_bus_data)

/-- The function `get_initial_data` (app.py lines 17-26): the fetch is an external call
whose outcome (a list of activities, or any exception) is a parameter; the
`try` block runs the fetch then the normalizer, and `except Exception`
converts any exception from either step into a user-visible `st.error`
message (the `Option PyError` component) plus the return value `([], [])`.
The function is total: no exception propagates out of it. -/
def get_initial_data (fetch_result : Except PyError (List VehicleActivity)) :
    (List VehicleActivity × List NormalizedBusRow) × Option PyError :=
  match fetch_result with
  | Except.error e => (([], []), some e)
  | Except.ok vehicle_activities =>
    match process_activities_to_data vehicle_activities with
    | Except.error e => (([], []), some e)
    | Except.ok bus_data => ((vehicle_activities, bus_data), Option.none)

/-! Amended specification-side definitions and concrete inputs -/

/-- The line resolution as the code actually performs it, by explicit cases:
the `line_ref` fallback is reachable only when `published_line_name` is
present with a falsy value, because an absent attribute makes `safe_get`
return the truthy default "N/A", which wins the `or`-chain. -/
def lineSpecAmended (mvj : Option MonitoredVehicleJourney) : PyVal :=
  match mvj with
  | Option.none => .str "N/A"
  | some m =>
    match m.published_line_name with
    | Option.none => .str "N/A"
    | some v =>
      if pyTruthy v then v
      else
        match m.line_ref with
        | Option.none => .str "N/A"
        | some w => if pyTruthy w then w else .str "N/A"

/-- A journey with no published line name attribute but a line reference
"42": per the spec its normalized line should be "42". -/
def mvjOnlyLineRef : MonitoredVehicleJourney :=
  { vehicle_ref := Option.none
    published_line_name := Option.none
    line_ref := some (.str "42")
    direction_ref := Option.none
    operator_ref := Option.none
    velocity := Option.none
    bearing := Option.none
    monitored_call := Option.none
    origin_name := Option.none
    destination_name := Option.none
    vehicle_location := Option.none }

/-- The activity wrapping `mvjOnlyLineRef`. -/
def activityOnlyLineRef : VehicleActivity := ⟨some mvjOnlyLineRef⟩

/-- A leaf attribute is clean when it is not present-holding-`None`. -/
def leafOK : Option PyVal → Bool
  | some .none => false
  | _ => true

/-- A latitude/longitude leaf is numeric-clean: absent, or holding a number. -/
def numOK : Option PyVal → Bool
  | Option.none => true
  | some (.num _) => true
  | some _ => false

/-- The monitored_call object, when present and non-`None`, has clean leaves. -/
def mcClean : Option (Option MonitoredCall) → Bool
  | some (some mc) => leafOK mc.stop_point_name && leafOK mc.expected_arrival_time
  | _ => true

/-- The vehicle_location object, when present and non-`None`, has numeric
latitude/longitude leaves. -/
def locClean : Option (Option VehicleLocation) → Bool
  | some (some loc) => numOK loc.latitude && numOK loc.longitude
  | _ => true

/-- A vehicle record is clean when no present leaf attribute holds `None` and
the location leaves, when present, hold numbers. -/
def recordClean (a : VehicleActivity) : Bool :=
  match a.monitored_vehicle_journey with
  | Option.none => true
  | some m =>
    leafOK m.vehicle_ref && leafOK m.published_line_name && leafOK m.line_ref &&
    leafOK m.direction_ref && leafOK m.operator_ref && leafOK m.velocity &&
    leafOK m.bearing && leafOK m.origin_name && leafOK m.destination_name &&
    mcClean m.monitored_call && locClean m.vehicle_location

/-- A journey whose `velocity` attribute is present holding `None` and whose
`vehicle_location.latitude` is present holding `None`. -/
def mvjNoneLeaves : MonitoredVehicleJourney :=
  { vehicle_ref := some (.str "V1")
    published_line_name := some (.str "7")
    line_ref := Option.none
    direction_ref := Option.none
    operator_ref := Option.none
    velocity := some .none
    bearing := Option.none
    monitored_call := Option.none
    origin_name := Option.none
    destination_name := Option.none
    vehicle_location := some (some { latitude := some .none, longitude := some (.num 1) }) }

/-- The activity wrapping `mvjNoneLeaves`. -/
def activityNoneLeaves : VehicleActivity := ⟨some mvjNoneLeaves⟩

/-- A fully clean activity with every attribute present holding a value. -/
def activityClean : VehicleActivity :=
  ⟨some
    { vehicle_ref := some (.str "V2")
      published_line_name := some (.str "8")
      line_ref := some (.str "LR8")
      direction_ref := some (.str "out")
      operator_ref := some (.str "OP")
      velocity := some (.num 30)
      bearing := some (.num 90)
      monitored_call := some (some { stop_point_name := some (.str "Stop"),
                                     expected_arrival_time := some (.str "12:00") })
      origin_name := some (.str "A")
      destination_name := some (.str "B")
      vehicle_location := some (some { latitude := some (.num 52.7),
                                       longitude := some (.num (-2.45)) }) }⟩

/-- A row whose vehicle reference is "ABC123", with sentinel distance. -/
def rowABC123 : NormalizedBusRow :=
  { vehicle_ref := .str "ABC123"
    line := .str "7"
    direction := .str "outbound"
    operator := .str "OP"
    speed := .num 30
    bearing := .num 90
    next_stop := .str "Station"
    eta := .str "12:00"
    from_name := .str "A"
    to_name := .str "B"
    lat := .num 52.7
    lon := .num (-2.45)
    distance := .str "N/A" }

/-! Helper lemmas -/

lemma pyTruthy_ne_none {v : PyVal} (h : pyTruthy v = true) : v ≠ .none := by
  intro hv
  subst hv
  simp [pyTruthy] at h

lemma pyOr_na_ne_none (x : PyVal) : pyOr x (.str "N/A") ≠ .none := by
  unfold pyOr
  split
  · exact pyTruthy_ne_none (by assumption)
  · simp

lemma resolveLine_ne_none (mvj : Option MonitoredVehicleJourney) :
    resolveLine mvj ≠ .none :=
  pyOr_na_ne_none _

lemma safe_get_ne_none_of_leafOK (m : MonitoredVehicleJourney)
    (attr : MonitoredVehicleJourney → Option PyVal)
    (h : leafOK (attr m) = true) :
    safe_get (some m) attr (.str "N/A") ≠ .none := by
  cases ha : attr m with
  | none => simp [safe_get, ha]
  | some v =>
    rw [ha] at h
    cases v with
    | none => simp [leafOK] at h
    | str s => simp [safe_get, ha]
    | num q => simp [safe_get, ha]

lemma safe_get_call_ne_none_of_clean (m : MonitoredVehicleJourney)
    (attr : MonitoredCall → Option PyVal)
    (hattr : ∀ mc, m.monitored_call = some (some mc) → leafOK (attr mc) = true) :
    safe_get_call (some m) attr (.str "N/A") ≠ .none := by
  cases hv : m.monitored_call with
  | none => simp [safe_get_call, hv]
  | some mo =>
    cases mo with
    | none => simp [safe_get_call, hv]
    | some mc =>
      cases ha : attr mc with
      | none => simp [safe_get_call, hv, ha]
      | some v =>
        have hOK := hattr mc hv
        rw [ha] at hOK
        cases v with
        | none => simp [leafOK] at hOK
        | str s => simp [safe_get_call, hv, ha]
        | num q => simp [safe_get_call, hv, ha]

lemma safe_get_loc_num_of_clean (m : MonitoredVehicleJourney) (q0 : ℚ)
    (attr : VehicleLocation → Option PyVal)
    (hattr : ∀ loc, m.vehicle_location = some (some loc) → numOK (attr loc) = true) :
    ∃ q, safe_get_loc (some m) attr (.num q0) = .num q := by
  cases hv : m.vehicle_location with
  | none => exact ⟨q0, by simp [safe_get_loc, hv]⟩
  | some lo =>
    cases lo with
    | none => exact ⟨q0, by simp [safe_get_loc, hv]⟩
    | some loc =>
      cases ha : attr loc with
      | none => exact ⟨q0, by simp [safe_get_loc, hv, ha]⟩
      | some v =>
        have hOK := hattr loc hv
        rw [ha] at hOK
        cases v with
        | none => simp [numOK] at hOK
        | str s => simp [numOK] at hOK
        | num q => exact ⟨q, by simp [safe_get_loc, hv, ha]⟩

lemma rowFilter_eq_filter (sl so : List PyVal) (rows : List NormalizedBusRow) :
    rowFilter sl so rows = rows.filter fun d => decide (retained sl so d) := by
  induction rows with
  | nil => rfl
  | cons d rest ih =>
    by_cases hd : retained sl so d
    · simp [rowFilter, List.filter_cons, hd, ih]
    · simp [rowFilter, List.filter_cons, hd, ih]

lemma applyFilters_snd (sl so : List PyVal)
    (pairs : List (VehicleActivity × NormalizedBusRow)) :
    (applyFilters sl so pairs).2 = rowFilter sl so (pairs.map Prod.snd) := by
  induction pairs with
  | nil => rfl
  | cons p rest ih =>
    obtain ⟨a, d⟩ := p
    by_cases hd : retained sl so d <;>
      simp [applyFilters, rowFilter, hd, ih]

lemma rowFilter_nil_nil (rows : List NormalizedBusRow) :
    rowFilter [] [] rows = rows := by
  induction rows with
  | nil => rfl
  | cons d rest ih => simp [rowFilter, retained, ih]

lemma rowFilter_idem (sl so : List PyVal) (rows : List NormalizedBusRow) :
    rowFilter sl so (rowFilter sl so rows) = rowFilter sl so rows := by
  rw [rowFilter_eq_filter, rowFilter_eq_filter, List.filter_filter]
  simp

lemma haversine_self (lat lon : ℝ) : haversine lat lon lat lon = 0 := by
  simp [haversine, radians, atan2, Real.sqrt_one]

lemma haversine_symm (a b c d : ℝ) : haversine a b c d = haversine c d a b := by
  have key : Real.sin (radians (c - a) / 2) ^ 2 +
      Real.cos (radians a) * Real.cos (radians c) *
        Real.sin (radians (d - b) / 2) ^ 2 =
      Real.sin (radians (a - c) / 2) ^ 2 +
      Real.cos (radians c) * Real.cos (radians a) *
        Real.sin (radians (b - d) / 2) ^ 2 := by
    have h1 : radians (a - c) / 2 = -(radians (c - a) / 2) := by unfold radians; ring
    have h2 : radians (b - d) / 2 = -(radians (d - b) / 2) := by unfold radians; ring
    rw [h1, h2, Real.sin_neg, Real.sin_neg, neg_sq, neg_sq]
    ring
  simp only [haversine]
  rw [key]

lemma haversine_antipodal : haversine 90 0 (-90) 0 = 6371 * Real.pi := by
  have e1 : (-90 - 90 : ℝ) * Real.pi / 180 / 2 = -(Real.pi / 2) := by ring
  have e2 : (0 - 0 : ℝ) * Real.pi / 180 / 2 = 0 := by ring
  have e3 : (90 : ℝ) * Real.pi / 180 = Real.pi / 2 := by ring
  have e4 : (-90 : ℝ) * Real.pi / 180 = -(Real.pi / 2) := by ring
  simp only [haversine, radians]
  rw [e1, e2, e3, e4, Real.sin_neg, Real.sin_pi_div_two, Real.sin_zero,
    Real.cos_neg, Real.cos_pi_div_two]
  norm_num [atan2, Real.sqrt_one]
  ring

/-! Claim theorems -/

/-- C1 (code bug): the spec says `process_activities_to_data` returns a
same-length, same-order list of rows — and that is what its docstring and the
per-activity loop intend, as the loop does build one row per activity in
order — but the function never returns: already on the empty input it raises
`NameError` on the unbound name `bus_data_list` (the mis-indented lookup loop
at utils.py line 54), so the claimed return never happens. -/
theorem process_crashes_despite_rows :
    process_activities_to_data [] = Except.error (PyError.nameError "bus_data_list") ∧
    ∀ vas : List VehicleActivity, (buildRows vas).length = vas.length :=
  ⟨rfl, fun vas => by simp [buildRows]⟩

/-- C2 (confirmed): for every input sequence, a call to
`process_activities_to_data` raises `NameError` on `bus_data_list` and never
returns a value: the statement `for data in bus_data_list:` executes after the
per-activity loop and before the unreachable `return bus_data`. -/
theorem process_always_nameError (vas : List VehicleActivity) :
    process_activities_to_data vas = Except.error (PyError.nameError "bus_data_list") :=
  rfl

/-- C3 (counterexample): a record with no published-line-name attribute and
line reference "42" "has only a line reference", yet its normalized "Line" is
"N/A", not "42": the absent attribute makes `safe_get` return the truthy
default "N/A", which short-circuits the `or`-chain before `line_ref`. -/
theorem line_fallback_counterexample :
    mvjOnlyLineRef.published_line_name = Option.none ∧
    mvjOnlyLineRef.line_ref = some (.str "42") ∧
    (processRow activityOnlyLineRef).line = .str "N/A" ∧
    (processRow activityOnlyLineRef).line ≠ .str "42" :=
  ⟨rfl, rfl, by decide, by decide⟩

/-- C3 (amended): the "Line" field equals the published line name when that
attribute is present with a truthy value, regardless of the line reference;
the `line_ref` fallback applies only when the published-name attribute is
present with a falsy value (e.g. `None`); when the published-name attribute is
absent, "Line" is "N/A" even if a line reference is present; otherwise "N/A". -/
theorem line_resolution_amended (mvj : Option MonitoredVehicleJourney) :
    resolveLine mvj = lineSpecAmended mvj := by
  cases mvj with
  | none => decide
  | some m =>
    cases hp : m.published_line_name with
    | none => simp [resolveLine, lineSpecAmended, safe_get, pyOr, pyTruthy, hp]
    | some v =>
      by_cases hv : pyTruthy v = true
      · simp [resolveLine, lineSpecAmended, safe_get, pyOr, hp, hv]
      · cases hr : m.line_ref with
        | none =>
          simp only [resolveLine, lineSpecAmended, safe_get, pyOr, hp, hr]
          rw [if_neg hv]
          simp
        | some w =>
          by_cases hw : pyTruthy w = true
          · simp [resolveLine, lineSpecAmended, safe_get, pyOr, hp, hr, hv, hw]
          · simp [resolveLine, lineSpecAmended, safe_get, pyOr, hp, hr, hv, hw]

/-- C4 (code bug): the lookup is specified (and its own docstring say) to
return a copy of the first row whose "Vehicle Ref" matches, but
`get_bus_details_by_ref` as defined has only its docstring as body, so on a
list containing a matching row it returns `None` instead of the row. -/
theorem lookup_returns_none_despite_match :
    rowABC123.vehicle_ref = .str "ABC123" ∧
    rowABC123 ∈ [rowABC123] ∧
    get_bus_details_by_ref [rowABC123] (.str "ABC123") = Option.none :=
  ⟨rfl, List.mem_singleton_self _, rfl⟩

/-- C5 (confirmed): `get_bus_details_by_ref` returns `None` for every list
and every reference (its body is only the docstring), and it is not among the
module-level names of utils, so `from utils import ... get_bus_details_by_ref`
in app.py line 11 cannot succeed. -/
theorem lookup_stub_and_not_exported :
    (∀ (l : List NormalizedBusRow) (r : PyVal),
      get_bus_details_by_ref l r = Option.none) ∧
    "get_bus_details_by_ref" ∉ utils_module_names :=
  ⟨fun _ _ => rfl, by decide⟩

/-- C6 (confirmed): the filter loop of `main` retains a row iff (selected
lines is empty OR the line of the row is selected) AND (selected operators is
empty OR the operator of the row is selected); with both selections empty it
returns all rows unchanged, and it is idempotent. -/
theorem filter_characterization (sl so : List PyVal)
    (pairs : List (VehicleActivity × NormalizedBusRow))
    (rows : List NormalizedBusRow) :
    (applyFilters sl so pairs).2 = rowFilter sl so (pairs.map Prod.snd) ∧
    (∀ d, d ∈ rowFilter sl so rows ↔ d ∈ rows ∧ retained sl so d) ∧
    rowFilter [] [] rows = rows ∧
    rowFilter sl so (rowFilter sl so rows) = rowFilter sl so rows := by
  refine ⟨applyFilters_snd sl so pairs, ?_, rowFilter_nil_nil rows,
    rowFilter_idem sl so rows⟩
  intro d
  rw [rowFilter_eq_filter]
  simp [List.mem_filter]

/-- C7 (confirmed): with a user location and a non-empty retained set, the "Distance (km)" field of every
output row equals `round(haversine(user, row), 2)`, the
output is sorted non-decreasing by that numeric distance, and it is a
permutation of the distance-updated rows (the sort is modelled by the stable
`insertionSort`, matching Python stable `list.sort`); with no user
location, rows whose distance is the sentinel keep it and keep feed order. -/
theorem pipeline_distance_sort (user_lat user_lon : ℝ)
    (rows : List NormalizedBusRow) :
    (rows ≠ [] →
      (∀ r ∈ pipeline_3_4 (some (user_lat, user_lon)) rows,
        r.distance = .num (round2 (haversine user_lat user_lon
          (pyNumR r.lat) (pyNumR r.lon)))) ∧
      List.Sorted distRel (pipeline_3_4 (some (user_lat, user_lon)) rows) ∧
      List.Perm (pipeline_3_4 (some (user_lat, user_lon)) rows)
        (updateDistances user_lat user_lon rows)) ∧
    ((∀ r ∈ rows, r.distance = .str "N/A") →
      pipeline_3_4 Option.none rows = rows ∧
      ∀ r ∈ pipeline_3_4 Option.none rows, r.distance = .str "N/A") := by
  constructor
  · intro hne
    have hE : rows.isEmpty = false := by
      cases rows with
      | nil => exact absurd rfl hne
      | cons a l => rfl
    have hpipe : pipeline_3_4 (some (user_lat, user_lon)) rows =
        sortByDistance (updateDistances user_lat user_lon rows) := by
      simp [pipeline_3_4, hE]
    refine ⟨?_, ?_, ?_⟩
    · intro r hr
      rw [hpipe] at hr
      unfold sortByDistance at hr
      have hr2 : r ∈ updateDistances user_lat user_lon rows :=
        (List.mem_insertionSort distRel).1 hr
      obtain ⟨d, hd, rfl⟩ := List.mem_map.1 hr2
      rfl
    · rw [hpipe]
      exact List.sorted_insertionSort distRel _
    · rw [hpipe]
      exact List.perm_insertionSort distRel _
  · intro hsent
    exact ⟨rfl, fun r hr => hsent r hr⟩

/-- Witness for C7 at a singleton list and the user location (1, 2). -/
theorem pipeline_distance_sort_witness :
    ((∀ r ∈ pipeline_3_4 (some ((1 : ℝ), (2 : ℝ))) [rowABC123],
        r.distance = .num (round2 (haversine 1 2 (pyNumR r.lat) (pyNumR r.lon)))) ∧
      List.Sorted distRel (pipeline_3_4 (some ((1 : ℝ), (2 : ℝ))) [rowABC123]) ∧
      List.Perm (pipeline_3_4 (some ((1 : ℝ), (2 : ℝ))) [rowABC123])
        (updateDistances 1 2 [rowABC123])) ∧
    (pipeline_3_4 Option.none [rowABC123] = [rowABC123] ∧
      ∀ r ∈ pipeline_3_4 Option.none [rowABC123], r.distance = .str "N/A") :=
  ⟨(pipeline_distance_sort 1 2 [rowABC123]).1 (List.cons_ne_nil _ _),
   (pipeline_distance_sort 1 2 [rowABC123]).2 (by decide)⟩

/-- C8 (confirmed): `haversine` is zero on coinciding points, symmetric in
its two points, and realizes the haversine great-circle formula with Earth
radius 6371 km — e.g. between the poles it yields half the circumference,
`6371 * π`. -/
theorem haversine_zero_symm_radius :
    (∀ lat lon : ℝ, haversine lat lon lat lon = 0) ∧
    (∀ a b c d : ℝ, haversine a b c d = haversine c d a b) ∧
    haversine 90 0 (-90) 0 = 6371 * Real.pi :=
  ⟨haversine_self, haversine_symm, haversine_antipodal⟩

/-- C9 (counterexample): a record whose `velocity` attribute is present
holding `None` and whose `vehicle_location.latitude` is present holding
`None` yields a row whose "Speed (km/h)" is `None` (neither a real value nor
the sentinel) and whose "Lat" is `None` (not a real number): `safe_get` only
defaults on absent attributes, not on present attributes holding `None`. -/
theorem row_none_passthrough_cex :
    (processRow activityNoneLeaves).speed = .none ∧
    (processRow activityNoneLeaves).speed ≠ .str "N/A" ∧
    (processRow activityNoneLeaves).lat = .none ∧
    ∀ q : ℚ, (processRow activityNoneLeaves).lat ≠ .num q :=
  ⟨rfl, by decide, rfl, fun q h => PyVal.noConfusion h⟩

/-- C9 (amended): every normalized row initializes "Distance (km)" to the
sentinel; and for records none of whose present attributes hold `None` (with
numeric location leaves), "Lat"/"Lon" are real numbers (0.0 when the journey
is absent) and every other field is a value or the sentinel. A present leaf
holding `None` is passed through instead of being defaulted. -/
theorem row_fields_amended (a : VehicleActivity) (h : recordClean a = true) :
    (processRow a).distance = .str "N/A" ∧
    (∃ q, (processRow a).lat = .num q) ∧
    (∃ q, (processRow a).lon = .num q) ∧
    (processRow a).vehicle_ref ≠ .none ∧
    (processRow a).line ≠ .none ∧
    (processRow a).direction ≠ .none ∧
    (processRow a).operator ≠ .none ∧
    (processRow a).speed ≠ .none ∧
    (processRow a).bearing ≠ .none ∧
    (processRow a).next_stop ≠ .none ∧
    (processRow a).eta ≠ .none ∧
    (processRow a).from_name ≠ .none ∧
    (processRow a).to_name ≠ .none ∧
    (a.monitored_vehicle_journey = Option.none →
      (processRow a).lat = .num 0 ∧ (processRow a).lon = .num 0) := by
  obtain ⟨mvj⟩ := a
  cases mvj with
  | none =>
    refine ⟨rfl, ⟨0, rfl⟩, ⟨0, rfl⟩, ?_, ?_, ?_, ?_, ?_, ?_, ?_, ?_, ?_, ?_,
      fun _ => ⟨rfl, rfl⟩⟩ <;> decide
  | some m =>
    simp only [recordClean, Bool.and_eq_true] at h
    obtain ⟨⟨⟨⟨⟨⟨⟨⟨⟨⟨h1, h2⟩, h3⟩, h4⟩, h5⟩, h6⟩, h7⟩, h8⟩, h9⟩, h10⟩, h11⟩ := h
    refine ⟨rfl, ?_, ?_, ?_, ?_, ?_, ?_, ?_, ?_, ?_, ?_, ?_, ?_, ?_⟩
    · exact safe_get_loc_num_of_clean m 0 _ (fun loc hv => by
        rw [hv] at h11
        simp only [locClean, Bool.and_eq_true] at h11
        exact h11.1)
    · exact safe_get_loc_num_of_clean m 0 _ (fun loc hv => by
        rw [hv] at h11
        simp only [locClean, Bool.and_eq_true] at h11
        exact h11.2)
    · exact safe_get_ne_none_of_leafOK m _ h1
    · exact resolveLine_ne_none _
    · exact safe_get_ne_none_of_leafOK m _ h4
    · exact safe_get_ne_none_of_leafOK m _ h5
    · exact safe_get_ne_none_of_leafOK m _ h6
    · exact safe_get_ne_none_of_leafOK m _ h7
    · exact safe_get_call_ne_none_of_clean m _ (fun mc hv => by
        rw [hv] at h10
        simp only [mcClean, Bool.and_eq_true] at h10
        exact h10.1)
    · exact safe_get_call_ne_none_of_clean m _ (fun mc hv => by
        rw [hv] at h10
        simp only [mcClean, Bool.and_eq_true] at h10
        exact h10.2)
    · exact safe_get_ne_none_of_leafOK m _ h8
    · exact safe_get_ne_none_of_leafOK m _ h9
    · intro hc
      exact Option.noConfusion hc

/-- Witness for C9 at a record with every attribute present and clean. -/
theorem row_fields_amended_witness :
    (processRow activityClean).distance = .str "N/A" ∧
    (∃ q, (processRow activityClean).lat = .num q) ∧
    (∃ q, (processRow activityClean).lon = .num q) ∧
    (processRow activityClean).vehicle_ref ≠ .none ∧
    (processRow activityClean).line ≠ .none ∧
    (processRow activityClean).direction ≠ .none ∧
    (processRow activityClean).operator ≠ .none ∧
    (processRow activityClean).speed ≠ .none ∧
    (processRow activityClean).bearing ≠ .none ∧
    (processRow activityClean).next_stop ≠ .none ∧
    (processRow activityClean).eta ≠ .none ∧
    (processRow activityClean).from_name ≠ .none ∧
    (processRow activityClean).to_name ≠ .none ∧
    (activityClean.monitored_vehicle_journey = Option.none →
      (processRow activityClean).lat = .num 0 ∧
      (processRow activityClean).lon = .num 0) :=
  row_fields_amended activityClean (by decide)

/-- C10 (confirmed): whenever the fetch or the normalization step raises,
`get_initial_data` catches the exception, reports it as a user-visible
message, and returns the empty pair; being total, it lets no exception
propagate past the refresh boundary. -/
theorem get_initial_data_catches
    (fetch_result : Except PyError (List VehicleActivity))
    (h : (∃ e, fetch_result = Except.error e) ∨
         (∃ vas e, fetch_result = Except.ok vas ∧
            process_activities_to_data vas = Except.error e)) :
    (get_initial_data fetch_result).1 = ([], []) ∧
    (get_initial_data fetch_result).2.isSome = true := by
  rcases h with ⟨e, rfl⟩ | ⟨vas, e, rfl, hp⟩
  · exact ⟨rfl, rfl⟩
  · simp [get_initial_data, hp]

/-- Witness for C10 at a failing fetch. -/
theorem get_initial_data_catches_witness :
    (get_initial_data (Except.error (PyError.other "network"))).1 = ([], []) ∧
    (get_initial_data (Except.error (PyError.other "network"))).2.isSome = true :=
  get_initial_data_catches (Except.error (PyError.other "network"))
    (Or.inl ⟨PyError.other "network", rfl⟩)

end TFBus
